import Mathlib

/-!
Shallow embedding of the credential-lifecycle and resilient-request subsystem
of the Voom-Printssistant backend (src/backend/src/canva-auth.ts,
src/backend/src/token-storage.ts via canva-auth.ts, src/backend/src/canva-api.ts,
src/backend/src/index.ts).

Conventions of the embedding:
- JavaScript epoch-millisecond instants are `Nat` (they are nonnegative and
  never overflow in scope).
- Network I/O is made explicit: a fetch result is passed in as a value
  (`TokenEndpointResponse`, or a status function for the axios interceptor),
  and `throw` becomes `Except`.
- The AES-256-GCM cipher from node:crypto (a library external to the
  repository) is modelled as an authenticated stream cipher: a keystream
  XOR for confidentiality and a one-byte weighted checksum (odd multipliers,
  invertible mod 256) padded to the 16-byte tag size for authentication,
  so that the GCM property "any single-byte change of iv/tag/ciphertext is
  detected" is reflected faithfully. The on-disk layout follows the code:
  hex(iv) ++ hex(authTag) ++ hex(ciphertext), with 16-byte iv and tag.
-/

namespace Printssistant

/-! ## Data model (canva-auth.ts `TokenData`, token-storage.ts `StoredTokenData`) -/

structure TokenData where
  accessToken : String
  refreshToken : String
  expiresAt : Nat
  userId : String
  scope : String
deriving Repr, DecidableEq

structure StoredTokenData extends TokenData where
  createdAt : Nat
  lastRefreshedAt : Nat
deriving Repr, DecidableEq

/-- `Partial<TokenData>` of TypeScript: each field may be absent. -/
structure PartialTokenData where
  accessToken : Option String := none
  refreshToken : Option String := none
  expiresAt : Option Nat := none
  userId : Option String := none
  scope : Option String := none
deriving Repr, DecidableEq

/-- The in-memory form of the persisted record map `Record<string, StoredTokenData>`. -/
def TokenMap : Type := String → Option StoredTokenData

def emptyTokens : TokenMap := fun _ => none

/-- Spread of a full `TokenData` (what `refreshAccessToken` returns) into a
`Partial<TokenData>` argument position: every key present. -/
def toPartial (td : TokenData) : PartialTokenData :=
  { accessToken := some td.accessToken
    refreshToken := some td.refreshToken
    expiresAt := some td.expiresAt
    userId := some td.userId
    scope := some td.scope }

/-! ## canva-auth.ts: refresh and expiry check -/

/-- JavaScript `x || fallback` on an optional string: `undefined`/`null` and
the empty string are falsy. -/
def jsOrElse (v : Option String) (fallback : String) : String :=
  match v with
  | none => fallback
  | some s => if s = "" then fallback else s

/-- The fields of the provider's token-endpoint response that
`refreshAccessToken` consumes, together with the HTTP outcome. -/
structure TokenEndpointResponse where
  ok : Bool
  status : Nat
  access_token : String
  refresh_token : Option String
  expires_in : Nat
  user_id : Option String
  scope : Option String
deriving Repr, DecidableEq

/-- `refreshAccessToken` (canva-auth.ts lines 120-151), with the fetch result
and the current time passed explicitly. On `!response.ok` it throws; otherwise
it builds the new `TokenData`, falling back to the prior refresh token when
`data.refresh_token` is absent (`data.refresh_token || refreshToken`). -/
def refreshAccessToken (now : Nat) (refreshToken : String)
    (resp : TokenEndpointResponse) : Except String TokenData :=
  if resp.ok then
    .ok { accessToken := resp.access_token
          refreshToken := jsOrElse resp.refresh_token refreshToken
          expiresAt := now + resp.expires_in * 1000
          userId := jsOrElse resp.user_id "unknown"
          scope := (resp.scope).getD "" }
  else
    .error ("Token refresh failed: " ++ toString resp.status)

/-- `bufferMs` of `isTokenExpired`: 5 minutes. -/
def bufferMs : Nat := 5 * 60 * 1000

/-- `isTokenExpired` (canva-auth.ts lines 163-166):
`Date.now() + bufferMs >= tokenData.expiresAt`. -/
def isTokenExpired (now : Nat) (tokenData : TokenData) : Bool :=
  decide (now + bufferMs ≥ tokenData.expiresAt)

/-! ## token-storage.ts: store mutations at the record-map level -/

/-- The merge performed by `TokenStorage.updateToken` (token-storage.ts lines
302-317) on an existing record: `{...existing, ...tokenData,
lastRefreshedAt: Date.now()}`. Keys absent from the partial keep the existing
values; `createdAt` is not a key of `Partial<TokenData>` and always survives. -/
def mergeToken (existing : StoredTokenData) (p : PartialTokenData)
    (now : Nat) : StoredTokenData :=
  { accessToken := p.accessToken.getD existing.accessToken
    refreshToken := p.refreshToken.getD existing.refreshToken
    expiresAt := p.expiresAt.getD existing.expiresAt
    userId := p.userId.getD existing.userId
    scope := p.scope.getD existing.scope
    createdAt := existing.createdAt
    lastRefreshedAt := now }

/-- `TokenStorage.updateToken`: throws when no record exists for `userId`
(in which case `saveTokens` is never reached and the persisted store is
untouched); otherwise overwrites the one record and saves. -/
def updateToken (now : Nat) (tokens : TokenMap) (userId : String)
    (p : PartialTokenData) : Except String TokenMap :=
  match tokens userId with
  | none => .error ("No token found for user " ++ userId)
  | some existing =>
      .ok (fun u => if u = userId then some (mergeToken existing p now) else tokens u)

/-- `TokenStorage.storeToken` (token-storage.ts lines 279-289). -/
def storeToken (now : Nat) (tokens : TokenMap) (userId : String)
    (td : TokenData) : TokenMap :=
  fun u =>
    if u = userId then some { toTokenData := td, createdAt := now, lastRefreshedAt := now }
    else tokens u

/-! ## token-storage.ts: the encrypted file

`TokenStorage.encrypt`/`decrypt` (token-storage.ts lines 211-242) call
node:crypto's AES-256-GCM. The cipher itself is a library external to the
repository; it is modelled as an authenticated stream cipher over byte lists
(`List Nat`, each element < 256): encryption XORs a keystream determined by
(key, iv, position); the 16-byte auth tag carries a weighted checksum of
key ++ iv ++ ciphertext whose position weights `2*i+1` are invertible
mod 256, reflecting GCM's guarantee that any single-byte alteration of the
iv, tag or ciphertext makes authentication fail. The hex layout and the
slicing offsets follow the code exactly. -/

def IV_LENGTH : Nat := 16
def AUTH_TAG_LENGTH : Nat := 16

/-- Lower-case hex digit for a value < 16, as Buffer.toString "hex" emits. -/
def hexDigitChar (n : Nat) : Char :=
  if n < 10 then Char.ofNat (48 + n) else Char.ofNat (87 + n)

/-- Two hex characters of one byte. -/
def byteToHex (b : Nat) : List Char :=
  [hexDigitChar (b / 16), hexDigitChar (b % 16)]

/-- Hex encoding of a byte sequence (`Buffer.toString "hex"`). -/
def bytesToHex (bs : List Nat) : List Char :=
  bs.flatMap byteToHex

/-- Numeric value of a lower-case hex character. -/
def hexCharVal (c : Char) : Nat :=
  if 48 ≤ c.toNat ∧ c.toNat ≤ 57 then c.toNat - 48
  else if 97 ≤ c.toNat ∧ c.toNat ≤ 102 then c.toNat - 87
  else 0

/-- Hex decoding (`Buffer.from _ "hex"`), pairing characters. -/
def hexToBytes : List Char → List Nat
  | c1 :: c2 :: rest => (hexCharVal c1 * 16 + hexCharVal c2) :: hexToBytes rest
  | _ => []

/-- Keystream model: one byte per position, determined by key, iv and the
position — the CTR part of AES-GCM. -/
def mixList (l : List Nat) : Nat :=
  l.foldl (fun a b => a * 131 + b + 1) 17

def keystreamByte (key iv : List Nat) (i : Nat) : Nat :=
  (mixList key + mixList iv * 31 + i * 7) % 256

/-- XOR a byte sequence against the keystream starting at position `i`;
applied to a plaintext it encrypts, applied to a ciphertext it decrypts. -/
def ctrCrypt (key iv : List Nat) : Nat → List Nat → List Nat
  | _, [] => []
  | i, b :: bs => (b ^^^ keystreamByte key iv i) :: ctrCrypt key iv (i + 1) bs

/-- Checksum core of the tag: bytes weighted by odd positional multipliers
(invertible mod 256, so a change of any single byte changes the sum). -/
def oddWeightedSum : Nat → List Nat → Nat
  | _, [] => 0
  | i, b :: bs => b * (2 * i + 1) + oddWeightedSum (i + 1) bs

/-- The 16-byte GCM auth tag model over (key, iv, ciphertext). -/
def gcmTag (key iv ct : List Nat) : List Nat :=
  (oddWeightedSum 0 (key ++ iv ++ ct) % 256) :: List.replicate (AUTH_TAG_LENGTH - 1) 0

/-- `TokenStorage.encrypt`: with the random iv passed explicitly, produce
`iv.toString("hex") + authTag.toString("hex") + encrypted`, where the
encrypted payload is `ctrCrypt key iv 0 pt`. -/
def encryptFile (key iv pt : List Nat) : List Char :=
  bytesToHex iv ++ bytesToHex (gcmTag key iv (ctrCrypt key iv 0 pt)) ++
    bytesToHex (ctrCrypt key iv 0 pt)

inductive DecryptError where
  /-- `decipher.final` threw: the auth tag did not verify. -/
  | authFailure
deriving Repr, DecidableEq

/-- `TokenStorage.decrypt`: slice `[0, IV_LENGTH*2)` as iv,
`[IV_LENGTH*2, (IV_LENGTH+AUTH_TAG_LENGTH)*2)` as auth tag, the rest as
ciphertext; authenticated decryption throws iff the tag does not match. -/
def decryptFile (key : List Nat) (encryptedData : List Char) :
    Except DecryptError (List Nat) :=
  if gcmTag key (hexToBytes (encryptedData.take (IV_LENGTH * 2)))
       (hexToBytes (encryptedData.drop ((IV_LENGTH + AUTH_TAG_LENGTH) * 2))) =
     hexToBytes ((encryptedData.drop (IV_LENGTH * 2)).take (AUTH_TAG_LENGTH * 2)) then
    .ok (ctrCrypt key (hexToBytes (encryptedData.take (IV_LENGTH * 2))) 0
      (hexToBytes (encryptedData.drop ((IV_LENGTH + AUTH_TAG_LENGTH) * 2))))
  else .error .authFailure

/-- A persisted file whose encrypted payload was corrupted after encryption:
`encryptFile key iv pt` with byte `p` of the ciphertext replaced by `b`. -/
def corruptedFile (key iv pt : List Nat) (p b : Nat) : List Char :=
  bytesToHex iv ++ bytesToHex (gcmTag key iv (ctrCrypt key iv 0 pt)) ++
    bytesToHex ((ctrCrypt key iv 0 pt).set p b)

/-- `TokenStorage.loadTokens` (token-storage.ts lines 247-260). The JSON
codec is the external `JSON.parse`, passed as `parse` (over plaintext
bytes). The file is `none` when `tokens.encrypted.json` does not exist.
The `try`/`catch` swallows every decrypt or parse failure and returns the
empty map. -/
def loadTokens (parse : List Nat → Option TokenMap) (key : List Nat)
    (file : Option (List Char)) : TokenMap :=
  match file with
  | none => emptyTokens
  | some encryptedContent =>
    match decryptFile key encryptedContent with
    | .ok decrypted => (parse decrypted).getD emptyTokens
    | .error _ => emptyTokens

/-- `TokenStorage.getToken` (token-storage.ts lines 294-297):
`tokens[userId] || null`. -/
def getToken (parse : List Nat → Option TokenMap) (key : List Nat)
    (file : Option (List Char)) (userId : String) : Option StoredTokenData :=
  loadTokens parse key file userId

/-! ## canva-api.ts: the response interceptor of `CanvaApiClient`

The axios response interceptor (canva-api.ts lines 84-104) is driven by the
remote platform's answers. We model the remote as a function from the attempt
index (0 = original request, 1 = retried request) to the HTTP status it
answers, and the token-refresh callback by whether it is installed
(`hasRefresh`, the `onTokenRefresh` option) and whether it succeeds
(`refreshOk`). axios resolves a response iff its status is in [200, 300)
(the default `validateStatus`); any other status reaches the interceptor's
error path. -/

inductive ReqOutcome where
  /-- The promise resolved with a response of this status. -/
  | success (status : Nat)
  /-- The promise rejected with the axios error of this response status. -/
  | failure (status : Nat)
  /-- The promise rejected with the error thrown by `onTokenRefresh`. -/
  | refreshError
deriving Repr, DecidableEq

/-- Observable effects of one logical request: how many requests reached the
remote, how many refresh attempts were made, and the final outcome. -/
structure RunResult where
  requests : Nat
  refreshes : Nat
  outcome : ReqOutcome
deriving Repr, DecidableEq

/-- axios default `validateStatus`: `200 <= status && status < 300`. -/
def isSuccessStatus (s : Nat) : Bool :=
  decide (200 ≤ s ∧ s < 300)

/-- Re-issuing `originalRequest` after the refresh: `_retry` is now `true`,
so the interceptor lets any error pass through (`Promise.reject(error)`). -/
def sendRetriedRequest (remote : Nat → Nat) : RunResult :=
  let s := remote 1
  if isSuccessStatus s then ⟨1, 0, .success s⟩ else ⟨1, 0, .failure s⟩

/-- One logical request through `CanvaApiClient`: the original request, then
the interceptor with `_retry` unset. On a 401 with `onTokenRefresh`
installed it marks `_retry`, awaits one refresh, and re-issues the request
once; a failed refresh is rejected as-is; every other error is rejected
unchanged. -/
def sendRequest (remote : Nat → Nat) (hasRefresh : Bool) (refreshOk : Bool) :
    RunResult :=
  let s := remote 0
  if isSuccessStatus s then ⟨1, 0, .success s⟩
  else if s = 401 ∧ hasRefresh = true then
    if refreshOk then
      let r := sendRetriedRequest remote
      ⟨r.requests + 1, r.refreshes + 1, r.outcome⟩
    else ⟨1, 1, .refreshError⟩
  else ⟨1, 0, .failure s⟩

/-! ## index.ts: the `GET /auth/callback` handler (lines 169-190) -/

inductive CallbackResult where
  /-- 400 "Invalid state parameter". -/
  | invalidState
  /-- 400 "Missing authorization code". -/
  | missingCode
  /-- 400 "Missing code_verifier. Please restart OAuth flow." -/
  | missingVerifier
  /-- The handler proceeds to `exchangeCodeForToken` with these arguments. -/
  | exchange (code : String) (codeVerifier : String)
deriving Repr, DecidableEq

/-- JavaScript falsiness of an optional query/session string:
`undefined`/`null` and the empty string are falsy. -/
def jsFalsy (v : Option String) : Bool :=
  match v with
  | none => true
  | some s => s = ""

/-- The guard sequence of the callback handler, up to the point where
`exchangeCodeForToken` is invoked: `!state || state !== sessionState` →
reject; `!code` → reject; `!codeVerifier` → reject; otherwise exchange. -/
def handleCallback (code oauthState sessionState sessionVerifier : Option String) :
    CallbackResult :=
  if jsFalsy oauthState = true ∨ oauthState ≠ sessionState then .invalidState
  else if jsFalsy code = true then .missingCode
  else if jsFalsy sessionVerifier = true then .missingVerifier
  else .exchange (code.getD "") (sessionVerifier.getD "")

/-! ## index.ts: `getCanvaClient` (lines 81-116), the Credential Supervisor -/

/-- The fate of the refresh fetch inside `getCanvaClient`: either the HTTP
round-trip completed with a response (whose `ok` flag may still be false —
that is the `AuthRefreshFailed` case thrown by `refreshAccessToken`), or the
fetch itself threw (transient network failure). -/
inductive RefreshFetch where
  | responded (resp : TokenEndpointResponse)
  | networkError
deriving Repr, DecidableEq

/-- The refresh attempt inside the supervisor's `try` block:
`refreshAccessToken` applied to the fetch result, with a network throw
propagating as its own error. -/
def attemptRefresh (now : Nat) (refreshToken : String) :
    RefreshFetch → Except String TokenData
  | .networkError => .error "fetch failed"
  | .responded resp => refreshAccessToken now refreshToken resp

/-- `getCanvaClient`, reduced to its observable verdict: the access token the
returned `CanvaApiClient` is constructed with, or `none` for the `null`
returns. No stored record → `null`; stored record near expiry and the
refresh attempt throws (for any reason — `AuthRefreshFailed` or a network
error) → the `catch` logs and returns `null`; otherwise the (possibly
refreshed) access token. -/
def getCanvaClient (now : Nat) (tokens : TokenMap) (io : RefreshFetch) :
    Option String :=
  match tokens "organization" with
  | none => none
  | some tokenData =>
    if isTokenExpired now tokenData.toTokenData then
      match attemptRefresh now tokenData.refreshToken io with
      | .ok newTokenData => some newTokenData.accessToken
      | .error _ => none
    else some tokenData.accessToken

/-! ## Concrete sample data for counterexamples and witnesses -/

def sampleToken : TokenData :=
  { accessToken := "at1", refreshToken := "rt1", expiresAt := 2000
    userId := "u1", scope := "design:content:read" }

def sampleStored : StoredTokenData :=
  { toTokenData := sampleToken, createdAt := 10, lastRefreshedAt := 10 }

/-- A store holding one record under the fixed "organization" account. -/
def orgStore : TokenMap :=
  fun u => if u = "organization" then some sampleStored else none

/-- A stand-in for `JSON.parse` that successfully parses every plaintext to a
valid-looking store, so that any `none`/empty outcome downstream is
attributable to decryption alone. -/
def sampleParse : List Nat → Option TokenMap :=
  fun _ => some orgStore

/-- A token-endpoint success response declaring `expires_in = 1` second. -/
def shortLivedResponse : TokenEndpointResponse :=
  { ok := true, status := 200, access_token := "at2", refresh_token := some "rt2"
    expires_in := 1, user_id := some "u1", scope := some "design:content:read" }

/-- A token-endpoint success response that omits the rotated refresh token
and grants one hour. -/
def omittedRefreshResponse : TokenEndpointResponse :=
  { ok := true, status := 200, access_token := "at3", refresh_token := none
    expires_in := 3600, user_id := some "u1", scope := some "design:content:read" }

/-- A token-endpoint response with a non-success status (rejected refresh
token): `refreshAccessToken` throws `AuthRefreshFailed` on it. -/
def failedRefreshResponse : TokenEndpointResponse :=
  { ok := false, status := 401, access_token := "", refresh_token := none
    expires_in := 0, user_id := none, scope := none }

/-! ## Lemmas about the cipher model -/

lemma hexCharVal_hexDigitChar {n : Nat} (h : n < 16) :
    hexCharVal (hexDigitChar n) = n := by
  interval_cases n <;> decide

lemma hexToBytes_byteToHex_append {b : Nat} (hb : b < 256) (rest : List Char) :
    hexToBytes (byteToHex b ++ rest) = b :: hexToBytes rest := by
  have h1 : b / 16 < 16 := by omega
  have h2 : b % 16 < 16 := by omega
  show (hexCharVal (hexDigitChar (b / 16)) * 16 + hexCharVal (hexDigitChar (b % 16)))
      :: hexToBytes rest = b :: hexToBytes rest
  rw [hexCharVal_hexDigitChar h1, hexCharVal_hexDigitChar h2]
  congr 1
  omega

lemma hexToBytes_bytesToHex {bs : List Nat} (h : ∀ b ∈ bs, b < 256) :
    hexToBytes (bytesToHex bs) = bs := by
  induction bs with
  | nil => rfl
  | cons b bs ih =>
    have hb : b < 256 := h b (List.mem_cons_self b bs)
    have hx : bytesToHex (b :: bs) = byteToHex b ++ bytesToHex bs := rfl
    rw [hx, hexToBytes_byteToHex_append hb,
      ih (fun x hx => h x (List.mem_cons_of_mem b hx))]

lemma length_bytesToHex (bs : List Nat) : (bytesToHex bs).length = 2 * bs.length := by
  induction bs with
  | nil => rfl
  | cons b bs ih =>
    have hx : bytesToHex (b :: bs) = byteToHex b ++ bytesToHex bs := rfl
    rw [hx, List.length_append, ih]
    simp [byteToHex]
    omega

lemma length_ctrCrypt (key iv : List Nat) (i : Nat) (bs : List Nat) :
    (ctrCrypt key iv i bs).length = bs.length := by
  induction bs generalizing i with
  | nil => rfl
  | cons b bs ih => simp [ctrCrypt, ih]

lemma ctrCrypt_ctrCrypt (key iv : List Nat) (i : Nat) (bs : List Nat) :
    ctrCrypt key iv i (ctrCrypt key iv i bs) = bs := by
  induction bs generalizing i with
  | nil => rfl
  | cons b bs ih => simp [ctrCrypt, ih, Nat.xor_cancel_right]

lemma keystreamByte_lt (key iv : List Nat) (i : Nat) :
    keystreamByte key iv i < 256 :=
  Nat.mod_lt _ (by norm_num)

lemma mem_ctrCrypt_lt {key iv bs : List Nat} (h : ∀ b ∈ bs, b < 256) :
    ∀ i, ∀ c ∈ ctrCrypt key iv i bs, c < 256 := by
  induction bs with
  | nil => intro i c hc; simp [ctrCrypt] at hc
  | cons b bs ih =>
    intro i c hc
    rcases List.mem_cons.mp hc with hc | hc
    · subst hc
      have hb : b < 2 ^ 8 := h b (List.mem_cons_self b bs)
      have hk : keystreamByte key iv i < 2 ^ 8 := keystreamByte_lt key iv i
      exact Nat.xor_lt_two_pow hb hk
    · exact ih (fun x hx => h x (List.mem_cons_of_mem b hx)) (i + 1) c hc

lemma mem_gcmTag_lt (key iv ct : List Nat) : ∀ b ∈ gcmTag key iv ct, b < 256 := by
  intro b hb
  rcases List.mem_cons.mp hb with hb | hb
  · subst hb
    exact Nat.mod_lt _ (by norm_num)
  · rw [(List.mem_replicate.mp hb).2]
    norm_num

lemma length_gcmTag (key iv ct : List Nat) : (gcmTag key iv ct).length = 16 := by
  simp [gcmTag, AUTH_TAG_LENGTH]

lemma oddWeightedSum_append (i : Nat) (xs ys : List Nat) :
    oddWeightedSum i (xs ++ ys) =
      oddWeightedSum i xs + oddWeightedSum (i + xs.length) ys := by
  induction xs generalizing i with
  | nil => simp [oddWeightedSum]
  | cons x xs ih =>
    have h1 : (x :: xs) ++ ys = x :: (xs ++ ys) := rfl
    rw [h1]
    show x * (2 * i + 1) + oddWeightedSum (i + 1) (xs ++ ys) =
      x * (2 * i + 1) + oddWeightedSum (i + 1) xs + oddWeightedSum (i + (x :: xs).length) ys
    rw [ih]
    have h2 : i + 1 + xs.length = i + (x :: xs).length := by
      simp [List.length_cons]
      omega
    rw [h2]
    omega

/-- Core separation fact: the checksum distinguishes two sequences that agree
except at one position, because the positional weights `2*i+1` are
invertible mod 256. -/
lemma oddWeightedSum_mod_ne (A D : List Nat) {b old : Nat}
    (hb : b < 256) (hold : old < 256) (hne : b ≠ old) :
    oddWeightedSum 0 (A ++ b :: D) % 256 ≠ oddWeightedSum 0 (A ++ old :: D) % 256 := by
  intro heq
  set m := A.length with hm
  rw [oddWeightedSum_append 0 A (b :: D), oddWeightedSum_append 0 A (old :: D)] at heq
  have hcons : ∀ c : Nat, oddWeightedSum (0 + m) (c :: D) =
      c * (2 * m + 1) + oddWeightedSum (m + 1) D := by
    intro c
    show c * (2 * (0 + m) + 1) + oddWeightedSum (0 + m + 1) D = _
    norm_num
  rw [hcons b, hcons old] at heq
  have hmod : oddWeightedSum 0 A + (b * (2 * m + 1) + oddWeightedSum (m + 1) D) ≡
      oddWeightedSum 0 A + (old * (2 * m + 1) + oddWeightedSum (m + 1) D) [MOD 256] := heq
  have hmod2 := Nat.ModEq.add_left_cancel' (oddWeightedSum 0 A) hmod
  have hmod3 := Nat.ModEq.add_right_cancel' (oddWeightedSum (m + 1) D) hmod2
  have hcop : Nat.gcd 256 (2 * m + 1) = 1 := by
    have h2 : Nat.Coprime (2 ^ 8) (2 * m + 1) :=
      Nat.Coprime.pow_left 8 (Nat.coprime_two_left.mpr (odd_two_mul_add_one m))
    simpa [Nat.Coprime] using h2
  have hmod4 : b ≡ old [MOD 256] := Nat.ModEq.cancel_right_of_coprime hcop hmod3
  have hfin : b = old := by
    have hbb : b % 256 = b := Nat.mod_eq_of_lt hb
    have hoo : old % 256 = old := Nat.mod_eq_of_lt hold
    calc b = b % 256 := hbb.symm
      _ = old % 256 := hmod4
      _ = old := hoo
  exact hne hfin

/-- A single-byte change of the ciphertext changes the first tag byte. -/
lemma gcmTag_head_ne {key iv ct : List Nat} {p b : Nat}
    (hp : p < ct.length) (hb : b < 256)
    (hold : ct.get ⟨p, hp⟩ < 256)
    (hne : b ≠ ct.get ⟨p, hp⟩) :
    oddWeightedSum 0 (key ++ iv ++ ct.set p b) % 256 ≠
      oddWeightedSum 0 (key ++ iv ++ ct) % 256 := by
  have hdecomp : ct = ct.take p ++ ct.get ⟨p, hp⟩ :: ct.drop (p + 1) := by
    conv_lhs => rw [← List.take_append_drop p ct]
    rw [List.drop_eq_getElem_cons hp]
    rfl
  have hset : ct.set p b = ct.take p ++ b :: ct.drop (p + 1) :=
    List.set_eq_take_cons_drop b hp
  have e1 : key ++ iv ++ ct.set p b =
      (key ++ iv ++ ct.take p) ++ b :: ct.drop (p + 1) := by
    rw [hset]
    simp [List.append_assoc]
  have e2 : key ++ iv ++ ct =
      (key ++ iv ++ ct.take p) ++ ct.get ⟨p, hp⟩ :: ct.drop (p + 1) := by
    conv_lhs => rw [hdecomp]
    simp [List.append_assoc]
  rw [e1, e2]
  exact oddWeightedSum_mod_ne (key ++ iv ++ ct.take p) (ct.drop (p + 1)) hb hold hne

/-- How `decrypt`'s slicing recovers the three segments of a well-formed
on-disk value `hex(iv) ++ hex(tag) ++ hex(payload)`. -/
lemma file_slices (iv tagBytes payload : List Nat)
    (hivlen : iv.length = IV_LENGTH) (hiv : ∀ b ∈ iv, b < 256)
    (htaglen : tagBytes.length = AUTH_TAG_LENGTH) (htaglt : ∀ b ∈ tagBytes, b < 256)
    (hpay : ∀ b ∈ payload, b < 256) :
    hexToBytes ((bytesToHex iv ++ bytesToHex tagBytes ++ bytesToHex payload).take
        (IV_LENGTH * 2)) = iv ∧
    hexToBytes (((bytesToHex iv ++ bytesToHex tagBytes ++ bytesToHex payload).drop
        (IV_LENGTH * 2)).take (AUTH_TAG_LENGTH * 2)) = tagBytes ∧
    hexToBytes ((bytesToHex iv ++ bytesToHex tagBytes ++ bytesToHex payload).drop
        ((IV_LENGTH + AUTH_TAG_LENGTH) * 2)) = payload := by
  have l1 : (bytesToHex iv).length = IV_LENGTH * 2 := by
    rw [length_bytesToHex, hivlen]
    omega
  have l2 : (bytesToHex tagBytes).length = AUTH_TAG_LENGTH * 2 := by
    rw [length_bytesToHex, htaglen]
    omega
  have e1 : (bytesToHex iv ++ (bytesToHex tagBytes ++ bytesToHex payload)).take
      (IV_LENGTH * 2) = bytesToHex iv := List.take_left' l1
  have e2 : (bytesToHex iv ++ (bytesToHex tagBytes ++ bytesToHex payload)).drop
      (IV_LENGTH * 2) = bytesToHex tagBytes ++ bytesToHex payload := List.drop_left' l1
  have e3 : (bytesToHex tagBytes ++ bytesToHex payload).take (AUTH_TAG_LENGTH * 2) =
      bytesToHex tagBytes := List.take_left' l2
  have e4 : (bytesToHex iv ++ (bytesToHex tagBytes ++ bytesToHex payload)).drop
      ((IV_LENGTH + AUTH_TAG_LENGTH) * 2) = bytesToHex payload := by
    rw [← List.append_assoc]
    refine List.drop_left' ?_
    rw [List.length_append, l1, l2]
    omega
  refine ⟨?_, ?_, ?_⟩
  · rw [List.append_assoc, e1, hexToBytes_bytesToHex hiv]
  · rw [List.append_assoc, e2, e3, hexToBytes_bytesToHex htaglt]
  · rw [List.append_assoc, e4, hexToBytes_bytesToHex hpay]

/-- Decryption of an untampered encrypted file succeeds and returns the
plaintext. -/
lemma decryptFile_encryptFile (key iv pt : List Nat)
    (hivlen : iv.length = IV_LENGTH) (hiv : ∀ b ∈ iv, b < 256)
    (hpt : ∀ b ∈ pt, b < 256) :
    decryptFile key (encryptFile key iv pt) = .ok pt := by
  have hct : ∀ b ∈ ctrCrypt key iv 0 pt, b < 256 := mem_ctrCrypt_lt hpt 0
  obtain ⟨s1, s2, s3⟩ := file_slices iv (gcmTag key iv (ctrCrypt key iv 0 pt))
    (ctrCrypt key iv 0 pt) hivlen hiv (length_gcmTag key iv _)
    (mem_gcmTag_lt key iv _) hct
  show decryptFile key (bytesToHex iv ++
      bytesToHex (gcmTag key iv (ctrCrypt key iv 0 pt)) ++
      bytesToHex (ctrCrypt key iv 0 pt)) = .ok pt
  unfold decryptFile
  rw [s1, s2, s3, if_pos rfl, ctrCrypt_ctrCrypt]

/-- Decryption of a file whose encrypted payload was altered in one byte
fails: the recomputed tag differs from the stored one. -/
lemma decryptFile_corruptedFile (key iv pt : List Nat) (p b : Nat)
    (hivlen : iv.length = IV_LENGTH) (hiv : ∀ b ∈ iv, b < 256)
    (hpt : ∀ b ∈ pt, b < 256) (hp : p < pt.length) (hb : b < 256)
    (hne : b ≠ (ctrCrypt key iv 0 pt).getD p 0) :
    decryptFile key (corruptedFile key iv pt p b) = .error .authFailure := by
  have hplen : p < (ctrCrypt key iv 0 pt).length := by
    rw [length_ctrCrypt]
    exact hp
  have hct : ∀ b ∈ ctrCrypt key iv 0 pt, b < 256 := mem_ctrCrypt_lt hpt 0
  have hset : ∀ x ∈ (ctrCrypt key iv 0 pt).set p b, x < 256 := by
    intro x hx
    rcases List.mem_or_eq_of_mem_set hx with hx | hx
    · exact hct x hx
    · rw [hx]
      exact hb
  obtain ⟨s1, s2, s3⟩ := file_slices iv (gcmTag key iv (ctrCrypt key iv 0 pt))
    ((ctrCrypt key iv 0 pt).set p b) hivlen hiv (length_gcmTag key iv _)
    (mem_gcmTag_lt key iv _) hset
  have hgetd : (ctrCrypt key iv 0 pt).getD p 0 = (ctrCrypt key iv 0 pt).get ⟨p, hplen⟩ := by
    rw [List.getD_eq_getElem _ _ hplen]
    rfl
  have htagne : gcmTag key iv ((ctrCrypt key iv 0 pt).set p b) ≠
      gcmTag key iv (ctrCrypt key iv 0 pt) := by
    have hhead := @gcmTag_head_ne key iv (ctrCrypt key iv 0 pt) p b hplen hb
      (hct _ (List.get_mem _ p hplen)) (by rw [← hgetd]; exact hne)
    intro hcontra
    exact hhead (congrArg (fun l => l.headD 0) hcontra)
  show decryptFile key (bytesToHex iv ++
      bytesToHex (gcmTag key iv (ctrCrypt key iv 0 pt)) ++
      bytesToHex ((ctrCrypt key iv 0 pt).set p b)) = .error .authFailure
  unfold decryptFile
  rw [s1, s2, s3, if_neg htagne]

/-! ## The claims -/

/-- C1: against a remote that answers every request with 401, a request
through the Resilient API Client performs exactly one refresh attempt and
exactly one retried request (two requests in total), then surfaces the 401
to the caller — never a second refresh or a third request. -/
theorem interceptor_single_retry_budget (remote : Nat → Nat)
    (h401 : ∀ n, remote n = 401) :
    sendRequest remote true true = ⟨2, 1, .failure 401⟩ := by
  simp [sendRequest, sendRetriedRequest, h401, isSuccessStatus]

theorem interceptor_single_retry_budget_witness :
    sendRequest (fun _ => 401) true true = ⟨2, 1, .failure 401⟩ :=
  interceptor_single_retry_budget (fun _ => 401) (fun _ => rfl)

/-- C7: a request that fails with any non-authentication status (for example
403, 404, 429 or a 5xx) triggers no refresh and no retry: the interceptor
rejects the original error unchanged with zero refresh attempts and one
request in total. -/
theorem interceptor_no_refresh_on_non_auth (remote : Nat → Nat)
    (hasRefresh refreshOk : Bool)
    (hfail : isSuccessStatus (remote 0) = false) (hnot401 : remote 0 ≠ 401) :
    sendRequest remote hasRefresh refreshOk = ⟨1, 0, .failure (remote 0)⟩ := by
  simp [sendRequest, hfail, hnot401]

theorem interceptor_no_refresh_on_non_auth_witness :
    sendRequest (fun _ => 404) true true = ⟨1, 0, .failure 404⟩ :=
  interceptor_no_refresh_on_non_auth (fun _ => 404) true true (by decide) (by decide)

/-- C5: the near-expiry predicate of the Credential Supervisor is exactly
`now + 300000 ms >= expiresAt`; in particular it holds at
`expiresAt = now + 299000` and fails at `expiresAt = now + 301000`. -/
theorem nearExpiry_buffer_boundary (now : Nat) (tokenData : TokenData) :
    (isTokenExpired now tokenData = true ↔ now + 300000 ≥ tokenData.expiresAt) ∧
    isTokenExpired now { tokenData with expiresAt := now + 299000 } = true ∧
    isTokenExpired now { tokenData with expiresAt := now + 301000 } = false := by
  refine ⟨?_, ?_, ?_⟩ <;> simp [isTokenExpired, bufferMs]

/-- C3: when the provider's refresh response omits a new refresh token, the
refresh result keeps the prior refresh token, and the record stored by the
subsequent `updateToken` still carries that same refresh token. -/
theorem refresh_retains_refreshToken (now now2 : Nat) (tokens : TokenMap)
    (uid : String) (existing : StoredTokenData) (resp : TokenEndpointResponse)
    (hrec : tokens uid = some existing) (hok : resp.ok = true)
    (homit : resp.refresh_token = none) :
    ∃ td,
      refreshAccessToken now existing.refreshToken resp = .ok td ∧
      td.refreshToken = existing.refreshToken ∧
      (∃ m, updateToken now2 tokens uid (toPartial td) = .ok m) ∧
      (∀ m, updateToken now2 tokens uid (toPartial td) = .ok m →
        ∀ merged, m uid = some merged →
          merged.refreshToken = existing.refreshToken) := by
  have href : refreshAccessToken now existing.refreshToken resp =
      .ok { accessToken := resp.access_token
            refreshToken := existing.refreshToken
            expiresAt := now + resp.expires_in * 1000
            userId := jsOrElse resp.user_id "unknown"
            scope := (resp.scope).getD "" } := by
    simp [refreshAccessToken, hok, homit, jsOrElse]
  refine ⟨_, href, rfl, ?_, ?_⟩
  · unfold updateToken
    rw [hrec]
    exact ⟨_, rfl⟩
  · intro m hm merged hmer
    unfold updateToken at hm
    rw [hrec] at hm
    cases hm
    simp at hmer
    subst hmer
    simp [mergeToken, toPartial]

theorem refresh_retains_refreshToken_witness :
    ∃ td,
      refreshAccessToken 5 sampleStored.refreshToken omittedRefreshResponse = .ok td ∧
      td.refreshToken = sampleStored.refreshToken ∧
      (∃ m, updateToken 7 orgStore "organization" (toPartial td) = .ok m) ∧
      (∀ m, updateToken 7 orgStore "organization" (toPartial td) = .ok m →
        ∀ merged, m "organization" = some merged →
          merged.refreshToken = sampleStored.refreshToken) :=
  refresh_retains_refreshToken 5 7 orgStore "organization" sampleStored
    omittedRefreshResponse (by decide) rfl rfl

/-- C4 fails as stated: a successful refresh computes the new `expiresAt` as
`now + expires_in * 1000` with no reference to the old record, so it is not
always strictly greater than the old `expiresAt`. Concretely: the stored
record expires at 2000, and a refresh at `now = 0` whose response declares
`expires_in = 1` second yields `expiresAt = 1000 < 2000`. -/
theorem expiry_monotonicity_counterexample :
    orgStore "organization" = some sampleStored ∧
    sampleStored.expiresAt = 2000 ∧
    refreshAccessToken 0 sampleStored.refreshToken shortLivedResponse =
      .ok { accessToken := "at2", refreshToken := "rt2", expiresAt := 1000
            userId := "u1", scope := "design:content:read" } ∧
    ¬ (1000 > sampleStored.expiresAt) := by
  refine ⟨by decide, by decide, ?_, by decide⟩
  simp [refreshAccessToken, shortLivedResponse, jsOrElse]

/-- C4 amended: after a successful refresh, the new `expiresAt` equals
`now + expires_in * 1000`; it is strictly greater than the old `expiresAt`
whenever the refresh was taken on the supervisor's near-expiry path
(`now + 300000 ≥ old.expiresAt`) and the provider grants more than the
5-minute buffer (`expires_in * 1000 > 300000`). -/
theorem expiry_increases_on_near_expiry_refresh (now : Nat) (old : TokenData)
    (resp : TokenEndpointResponse) (hok : resp.ok = true)
    (hnear : isTokenExpired now old = true)
    (hlife : resp.expires_in * 1000 > bufferMs) :
    ∃ td, refreshAccessToken now old.refreshToken resp = .ok td ∧
      td.expiresAt = now + resp.expires_in * 1000 ∧
      td.expiresAt > old.expiresAt := by
  refine ⟨{ accessToken := resp.access_token
            refreshToken := jsOrElse resp.refresh_token old.refreshToken
            expiresAt := now + resp.expires_in * 1000
            userId := jsOrElse resp.user_id "unknown"
            scope := (resp.scope).getD "" }, ?_, rfl, ?_⟩
  · simp [refreshAccessToken, hok]
  · have h1 : now + bufferMs ≥ old.expiresAt := by
      simpa [isTokenExpired] using hnear
    show now + resp.expires_in * 1000 > old.expiresAt
    omega

theorem expiry_increases_on_near_expiry_refresh_witness :
    ∃ td, refreshAccessToken 0 sampleToken.refreshToken omittedRefreshResponse = .ok td ∧
      td.expiresAt = 0 + omittedRefreshResponse.expires_in * 1000 ∧
      td.expiresAt > sampleToken.expiresAt :=
  expiry_increases_on_near_expiry_refresh 0 sampleToken omittedRefreshResponse
    rfl (by decide) (by decide)

/-- C6: decrypting the result of encrypting a serialized payload with the
same derived key returns the payload exactly, the on-disk form being
`hex(iv) ++ hex(authTag) ++ hex(ciphertext)` with a 16-byte iv. -/
theorem encrypt_decrypt_roundtrip (key iv pt : List Nat)
    (hivlen : iv.length = IV_LENGTH) (hiv : ∀ b ∈ iv, b < 256)
    (hpt : ∀ b ∈ pt, b < 256) :
    decryptFile key (encryptFile key iv pt) = .ok pt :=
  decryptFile_encryptFile key iv pt hivlen hiv hpt

theorem encrypt_decrypt_roundtrip_witness :
    decryptFile [7, 3] (encryptFile [7, 3] (List.replicate 16 0) [104, 105]) =
      .ok [104, 105] :=
  encrypt_decrypt_roundtrip [7, 3] (List.replicate 16 0) [104, 105]
    (by decide) (by decide) (by decide)

/-- C2 fails as stated: on a persisted file whose ciphertext has one byte
flipped, the decrypt layer does detect the corruption (it throws, which is
the `CredentialStoreCorrupt` condition), but `loadTokens` catches the error
and returns the empty store, so the subsequent `getToken` silently returns
`null` instead of failing loudly — exactly the "looks like never
authenticated" outcome the claim rules out. `sampleParse` parses every
plaintext to a store holding a record for "organization", so the `none` is
attributable to the swallowed decryption failure alone. -/
theorem store_corruption_counterexample :
    decryptFile [7, 3] (corruptedFile [7, 3] (List.replicate 16 0) [104, 105] 0 255) =
      .error .authFailure ∧
    getToken sampleParse [7, 3]
      (some (corruptedFile [7, 3] (List.replicate 16 0) [104, 105] 0 255))
      "organization" = none ∧
    getToken sampleParse [7, 3]
      (some (encryptFile [7, 3] (List.replicate 16 0) [104, 105]))
      "organization" = some sampleStored := by
  refine ⟨by rfl, by decide, by decide⟩

/-- C2 amended: for every persisted credential file whose ciphertext has any
byte flipped, decryption fails (the authenticated cipher detects the
corruption), but `loadTokens` catches the failure and returns the empty
store, so a subsequent `getToken` call returns `null` rather than failing
with `CredentialStoreCorrupt` — corruption is not distinguishable from
"never authenticated". -/
theorem store_corruption_returns_empty (parse : List Nat → Option TokenMap)
    (key iv pt : List Nat) (uid : String) (p b : Nat)
    (hivlen : iv.length = IV_LENGTH) (hiv : ∀ x ∈ iv, x < 256)
    (hpt : ∀ x ∈ pt, x < 256) (hp : p < pt.length) (hb : b < 256)
    (hne : b ≠ (ctrCrypt key iv 0 pt).getD p 0) :
    decryptFile key (corruptedFile key iv pt p b) = .error .authFailure ∧
    loadTokens parse key (some (corruptedFile key iv pt p b)) = emptyTokens ∧
    getToken parse key (some (corruptedFile key iv pt p b)) uid = none := by
  have hdec := decryptFile_corruptedFile key iv pt p b hivlen hiv hpt hp hb hne
  refine ⟨hdec, ?_, ?_⟩
  · simp [loadTokens, hdec]
  · simp [getToken, loadTokens, hdec, emptyTokens]

theorem store_corruption_returns_empty_witness :
    decryptFile [7, 3] (corruptedFile [7, 3] (List.replicate 16 0) [104, 105] 1 9) =
      .error .authFailure ∧
    loadTokens sampleParse [7, 3]
      (some (corruptedFile [7, 3] (List.replicate 16 0) [104, 105] 1 9)) = emptyTokens ∧
    getToken sampleParse [7, 3]
      (some (corruptedFile [7, 3] (List.replicate 16 0) [104, 105] 1 9)) "u9" = none :=
  store_corruption_returns_empty sampleParse [7, 3] (List.replicate 16 0) [104, 105]
    "u9" 1 9 (by decide) (by decide) (by decide) (by decide) (by decide) (by decide)

/-- C8: a callback whose `state` query parameter is absent or differs from
the state stored for the pending attempt is answered with the invalid-state
rejection before any token exchange: the handler never reaches
`exchangeCodeForToken`. -/
theorem callback_rejects_state_mismatch (code st sessionState verifier : Option String)
    (h : st = none ∨ st ≠ sessionState) :
    handleCallback code st sessionState verifier = .invalidState ∧
    ∀ c v, handleCallback code st sessionState verifier ≠ .exchange c v := by
  have hcond : jsFalsy st = true ∨ st ≠ sessionState := by
    rcases h with h | h
    · left
      rw [h]
      rfl
    · right
      exact h
  have hres : handleCallback code st sessionState verifier = .invalidState := by
    unfold handleCallback
    rw [if_pos hcond]
  exact ⟨hres, fun c v hcontra => by rw [hres] at hcontra; cases hcontra⟩

theorem callback_rejects_state_mismatch_witness :
    handleCallback (some "authcode") (some "attacker") (some "issued") (some "v") =
      .invalidState ∧
    ∀ c v, handleCallback (some "authcode") (some "attacker") (some "issued") (some "v") ≠
      .exchange c v :=
  callback_rejects_state_mismatch (some "authcode") (some "attacker") (some "issued")
    (some "v") (.inr (by decide))

/-- C9 fails as stated: the Credential Supervisor does not report the three
outcomes distinctly. `getCanvaClient` returns the same observable `null` for
an account with no stored record, for a refresh rejected by the provider
(`AuthRefreshFailed`), and for a transient network failure during refresh —
the `catch` block folds the last two into the first. -/
theorem supervisor_outcomes_counterexample :
    getCanvaClient 1000000 emptyTokens (.responded failedRefreshResponse) = none ∧
    getCanvaClient 1000000 orgStore (.responded failedRefreshResponse) = none ∧
    getCanvaClient 1000000 orgStore .networkError = none := by
  refine ⟨by decide, by decide, by decide⟩

/-- C9 amended: the supervisor returns `null` when no record is stored, and
also returns `null` when the stored record is near expiry and the refresh
attempt fails — whether the provider rejected the refresh token
(`AuthRefreshFailed`) or the fetch failed transiently; the three outcomes
are reported identically, not distinctly. -/
theorem supervisor_null_on_absent_or_failed_refresh (now : Nat)
    (tokens : TokenMap) (io : RefreshFetch) :
    (tokens "organization" = none → getCanvaClient now tokens io = none) ∧
    (∀ td, tokens "organization" = some td →
      isTokenExpired now td.toTokenData = true →
      (io = .networkError ∨ ∃ resp, io = .responded resp ∧ resp.ok = false) →
      getCanvaClient now tokens io = none) := by
  constructor
  · intro h
    simp [getCanvaClient, h]
  · intro td hrec hexp hfail
    rcases hfail with h | ⟨resp, hio, hok⟩
    · subst h
      simp [getCanvaClient, hrec, hexp, attemptRefresh]
    · subst hio
      simp [getCanvaClient, hrec, hexp, attemptRefresh, refreshAccessToken, hok]

theorem supervisor_null_on_absent_or_failed_refresh_witness :
    getCanvaClient 1000000 emptyTokens .networkError = none ∧
    getCanvaClient 1000000 orgStore .networkError = none :=
  ⟨(supervisor_null_on_absent_or_failed_refresh 1000000 emptyTokens .networkError).1 rfl,
   (supervisor_null_on_absent_or_failed_refresh 1000000 orgStore .networkError).2
     sampleStored (by decide) (by decide) (.inl rfl)⟩

/-- C10: `updateToken` on an account with an existing record merges the
partial update over it: every field absent from the partial keeps its prior
value (in particular `createdAt`, which the partial can never carry, and
`refreshToken` when omitted), `lastRefreshedAt` is set to the current time,
and every other account's record is untouched; on an account with no record
it throws and no store is written. -/
theorem updateToken_partial_frame (now : Nat) (tokens : TokenMap) (uid : String)
    (p : PartialTokenData) :
    (tokens uid = none →
      updateToken now tokens uid p = .error ("No token found for user " ++ uid)) ∧
    (∀ existing, tokens uid = some existing →
      ∃ m, updateToken now tokens uid p = .ok m ∧
        m uid = some (mergeToken existing p now) ∧
        (mergeToken existing p now).createdAt = existing.createdAt ∧
        (p.accessToken = none →
          (mergeToken existing p now).accessToken = existing.accessToken) ∧
        (p.refreshToken = none →
          (mergeToken existing p now).refreshToken = existing.refreshToken) ∧
        (p.expiresAt = none →
          (mergeToken existing p now).expiresAt = existing.expiresAt) ∧
        (p.userId = none →
          (mergeToken existing p now).userId = existing.userId) ∧
        (p.scope = none →
          (mergeToken existing p now).scope = existing.scope) ∧
        (mergeToken existing p now).lastRefreshedAt = now ∧
        ∀ u, u ≠ uid → m u = tokens u) := by
  constructor
  · intro h
    unfold updateToken
    rw [h]
  · intro existing hrec
    refine ⟨fun u => if u = uid then some (mergeToken existing p now) else tokens u,
      ?_, ?_, rfl, ?_, ?_, ?_, ?_, ?_, rfl, ?_⟩
    · unfold updateToken
      rw [hrec]
    · exact if_pos rfl
    · intro h
      simp [mergeToken, h]
    · intro h
      simp [mergeToken, h]
    · intro h
      simp [mergeToken, h]
    · intro h
      simp [mergeToken, h]
    · intro h
      simp [mergeToken, h]
    · intro u hu
      exact if_neg hu

theorem updateToken_partial_frame_witness :
    updateToken 42 orgStore "nobody" { refreshToken := some "r9" } =
      .error ("No token found for user " ++ "nobody") ∧
    ∃ m, updateToken 42 orgStore "organization" { accessToken := some "a9" } = .ok m ∧
      m "organization" = some (mergeToken sampleStored { accessToken := some "a9" } 42) ∧
      (mergeToken sampleStored { accessToken := some "a9" } 42).createdAt =
        sampleStored.createdAt ∧
      (mergeToken sampleStored { accessToken := some "a9" } 42).refreshToken =
        sampleStored.refreshToken := by
  constructor
  · exact (updateToken_partial_frame 42 orgStore "nobody"
      { refreshToken := some "r9" }).1 (by decide)
  · obtain ⟨m, h1, h2, _, _, h5, _⟩ :=
      (updateToken_partial_frame 42 orgStore "organization"
        { accessToken := some "a9" }).2 sampleStored (by decide)
    exact ⟨m, h1, h2, rfl, h5 rfl⟩

end Printssistant
